import Mathlib

/-
Verification development for the nutrition unit-conversion and
meal-aggregation engine of the juula-admin repository.

The definitions below are a shallow embedding of:
  - src/shared/schema.ts:
      foodSpecificConversions, detectFoodType, calculateNutritionForServing
  - src/client/src/components/meal-form-modal.tsx:
      calculateBaseNutrition
JavaScript numbers are modelled as rationals; an optional field of a record
is modelled as an Option; a JavaScript object key holding null is modelled
as a present key whose value is none (so a merged lookup yields
Option (Option Rat): outer none = key absent, some none = key null,
some (some v) = key holds the number v).
-/

/-- foodType of a food: solid (base unit grams) or liquid (base unit ml). -/
inductive FoodType where
  | solid : FoodType
  | liquid : FoodType
  deriving DecidableEq

/-- The part of nutritionPer100 that calculateNutritionForServing and
calculateBaseNutrition read: calories is required, the six other nutrients
are optional (the schema's further micronutrients are never read by these
functions). -/
structure Nutrition100 where
  calories : ℚ
  protein : Option ℚ
  carbs : Option ℚ
  fat : Option ℚ
  fiber : Option ℚ
  sugar : Option ℚ
  sodium : Option ℚ
  deriving DecidableEq

/-- customConversions of the food schema: six optional positive per-unit
amounts (grams or ml per cup, plate, fist, piece, tbsp, tsp). -/
structure CustomConv where
  cup : Option ℚ
  plate : Option ℚ
  fist : Option ℚ
  piece : Option ℚ
  tbsp : Option ℚ
  tsp : Option ℚ
  deriving DecidableEq

/-- The fields of a Food record that the conversion engine reads. -/
structure Food where
  id : String
  name : String
  foodType : FoodType
  nutritionPer100 : Nutrition100
  customConversions : Option CustomConv
  deriving DecidableEq

/-- One entry of foodSpecificConversions: a partial table of cup, plate and
piece amounts, where none models a JavaScript null value. -/
structure FoodConv where
  cup : Option ℚ
  plate : Option ℚ
  piece : Option ℚ
  deriving DecidableEq

/-- foodSpecificConversions from src/shared/schema.ts, in the object
literal's insertion order. -/
def foodSpecificConversions : List (String × FoodConv) :=
  [ (r"rice", FoodConv.mk (some 185) (some 200) none),
    (r"pasta", FoodConv.mk (some 220) (some 180) none),
    (r"oatmeal", FoodConv.mk (some 240) (some 200) none),
    (r"quinoa", FoodConv.mk (some 170) (some 150) none),
    (r"bread", FoodConv.mk none none (some 25)),
    (r"apple", FoodConv.mk (some 125) none (some 180)),
    (r"banana", FoodConv.mk (some 150) none (some 120)),
    (r"orange", FoodConv.mk (some 180) none (some 150)),
    (r"grapes", FoodConv.mk (some 150) (some 200) (some 5)),
    (r"strawberry", FoodConv.mk (some 150) (some 200) (some 15)),
    (r"blueberry", FoodConv.mk (some 150) (some 200) (some 1)),
    (r"broccoli", FoodConv.mk (some 90) (some 150) (some 25)),
    (r"potato", FoodConv.mk (some 150) (some 200) (some 200)),
    (r"carrot", FoodConv.mk (some 130) (some 150) (some 60)),
    (r"tomato", FoodConv.mk (some 180) (some 200) (some 120)),
    (r"onion", FoodConv.mk (some 160) (some 180) (some 100)),
    (r"cucumber", FoodConv.mk (some 120) (some 150) (some 300)),
    (r"chicken", FoodConv.mk none (some 200) (some 150)),
    (r"beef", FoodConv.mk none (some 200) (some 100)),
    (r"fish", FoodConv.mk none (some 180) (some 120)),
    (r"egg", FoodConv.mk none none (some 50)),
    (r"tofu", FoodConv.mk (some 250) (some 200) (some 85)),
    (r"cheese", FoodConv.mk (some 115) none (some 30)),
    (r"yogurt", FoodConv.mk (some 245) none none),
    (r"almond", FoodConv.mk (some 140) none (some 1)),
    (r"walnut", FoodConv.mk (some 120) none (some 3)),
    (r"peanut", FoodConv.mk (some 150) none (some 1)) ]

/-- The lowercased characters of a string (foodName.toLowerCase()). -/
def lowerChars (s : String) : List Char :=
  s.data.map Char.toLower

/-- leadMatch pat l is true when pat occurs at the head of l. -/
def leadMatch : List Char → List Char → Bool
  | [], _ => true
  | _ :: _, [] => false
  | p :: ps, c :: cs => p == c && leadMatch ps cs

/-- containsSeq hay pat is true when pat occurs contiguously anywhere in
hay, the semantics of JavaScript String.prototype.includes. -/
def containsSeq : List Char → List Char → Bool
  | [], pat => leadMatch pat []
  | c :: rest, pat => leadMatch pat (c :: rest) || containsSeq rest pat

/-- detectFoodType from src/shared/schema.ts: lowercase the food name and
return the first key of foodSpecificConversions, in insertion order, that
occurs in the name. -/
def detectFoodType (foodName : String) : Option String :=
  (foodSpecificConversions.find? (fun e => containsSeq (lowerChars foodName) e.1.data)).map (fun e => e.1)

/-- The food-specific table selected for a food name: the table of the key
returned by detectFoodType, when there is one. -/
def foodSpecificFor (foodName : String) : Option FoodConv :=
  match detectFoodType foodName with
  | some k => List.lookup k foodSpecificConversions
  | none => none

/-- The value of a customConversions object at a unit key, none when the
key is absent from the object. -/
def customField (cc : CustomConv) (u : String) : Option ℚ :=
  if u = "cup" then cc.cup
  else if u = "plate" then cc.plate
  else if u = "fist" then cc.fist
  else if u = "piece" then cc.piece
  else if u = "tbsp" then cc.tbsp
  else if u = "tsp" then cc.tsp
  else none

/-- The custom layer of the merged conversion object: food.customConversions
spread last, so a present custom key always wins. -/
def customLookup (food : Food) (u : String) : Option ℚ :=
  match food.customConversions with
  | some cc => customField cc u
  | none => none

/-- The value of a food-specific table at a unit key: the table object
always carries the three keys cup, plate, piece (possibly null = inner
none); every other key is absent (outer none). -/
def tblField (t : FoodConv) (u : String) : Option (Option ℚ) :=
  if u = "cup" then some t.cup
  else if u = "plate" then some t.plate
  else if u = "piece" then some t.piece
  else none

/-- The food-specific layer of the merged conversion object. -/
def foodSpecificLayer (food : Food) (u : String) : Option (Option ℚ) :=
  match foodSpecificFor food.name with
  | some t => tblField t u
  | none => none

/-- defaultConversions from calculateNutritionForServing: the generic
fallback amounts, with cup, tbsp and tsp depending on foodType. -/
def defaultConversions (ft : FoodType) (u : String) : Option ℚ :=
  if u = "l" then some 1000
  else if u = "ml" then some 1
  else if u = "cup" then some (if ft = FoodType.liquid then 240 else 200)
  else if u = "tbsp" then some (if ft = FoodType.liquid then 15 else 12)
  else if u = "tsp" then some (if ft = FoodType.liquid then 5 else 4)
  else if u = "g" then some 1
  else if u = "plate" then some 200
  else if u = "fist" then some 80
  else if u = "piece" then some 50
  else none

/-- The merged conversions object, built by object spread in the source:
defaults first, then the food-specific table, then customConversions, a
later layer's present key (even a null one) shadowing an earlier layer's. -/
def mergedConversion (food : Food) (u : String) : Option (Option ℚ) :=
  match customLookup food u with
  | some v => some (some v)
  | none =>
    match foodSpecificLayer food u with
    | some nv => some nv
    | none =>
      match defaultConversions food.foodType u with
      | some v => some (some v)
      | none => none

/-- gramsOrMl of calculateNutritionForServing: servingSize multiplied by
the merged conversion value when that value is neither undefined nor null,
and the raw servingSize otherwise. -/
def resolvedAmount (food : Food) (servingSize : ℚ) (servingUnit : String) : ℚ :=
  match mergedConversion food servingUnit with
  | some (some v) => servingSize * v
  | _ => servingSize

/-- baseAmount of calculateNutritionForServing: 100 grams for solids and
100 ml for liquids (the source ternary yields 100 in both branches). -/
def baseAmount (food : Food) : ℚ :=
  if food.foodType = FoodType.solid then 100 else 100

/-- The ratio computed by calculateNutritionForServing: gramsOrMl divided
by the 100-unit nutrition basis. -/
def servingFactor (food : Food) (servingSize : ℚ) (servingUnit : String) : ℚ :=
  resolvedAmount food servingSize servingUnit / baseAmount food

/-- JavaScript Math.round on a rational: the floor of x + 1/2 (JavaScript
rounds halves toward positive infinity). -/
def jround (x : ℚ) : ℤ :=
  Rat.floor (x + 1 / 2)

/-- Rounding to one decimal place as the source writes it:
Math.round(x * 10) / 10. -/
def round1 (x : ℚ) : ℚ :=
  ((jround (x * 10) : ℤ) : ℚ) / 10

/-- One optional nutrient of the output record: the source guards with
JavaScript truthiness (value ? round(value * ratio * 10) / 10 : undefined),
so an absent value and a present zero both yield undefined. -/
def truthyScale (v : Option ℚ) (r : ℚ) : Option ℚ :=
  match v with
  | some x => if x = 0 then none else some (round1 (x * r))
  | none => none

/-- The record type returned by calculateNutritionForServing. -/
structure NutritionOut where
  calories : ℚ
  protein : Option ℚ
  carbs : Option ℚ
  fat : Option ℚ
  fiber : Option ℚ
  sugar : Option ℚ
  sodium : Option ℚ
  deriving DecidableEq

/-- The final record construction of calculateNutritionForServing applied
to a ratio: calories through Math.round, each optional nutrient through
the truthiness-guarded one-decimal rounding. -/
def scaleNutrition (n : Nutrition100) (r : ℚ) : NutritionOut :=
  { calories := ((jround (n.calories * r) : ℤ) : ℚ),
    protein := truthyScale n.protein r,
    carbs := truthyScale n.carbs r,
    fat := truthyScale n.fat r,
    fiber := truthyScale n.fiber r,
    sugar := truthyScale n.sugar r,
    sodium := truthyScale n.sodium r }

/-- calculateNutritionForServing from src/shared/schema.ts. -/
def calculateNutritionForServing (food : Food) (servingSize : ℚ) (servingUnit : String) : NutritionOut :=
  scaleNutrition food.nutritionPer100 (servingFactor food servingSize servingUnit)

example : detectFoodType (r"Brown Rice") = some (r"rice") := by decide

example : foodSpecificFor (r"Fresh Bread") = some (FoodConv.mk none none (some 25)) := by decide

/-- Rat.floor agrees with the floor of the ordered-field structure. -/
theorem ratFloor_eq_intFloor (q : ℚ) : Rat.floor q = Int.floor q :=
  (Rat.floor_def' q).trans Rat.floor_def.symm

/-- Evaluation rule for jround from the two bracketing inequalities. -/
theorem jround_eq (x : ℚ) (k : ℤ) (h1 : (k : ℚ) ≤ x + 1 / 2) (h2 : x + 1 / 2 < (k : ℚ) + 1) : jround x = k := by
  rw [jround, ratFloor_eq_intFloor]
  exact Int.floor_eq_iff.mpr ⟨h1, h2⟩

/-- Evaluation rule for round1 from the two bracketing inequalities. -/
theorem round1_eq (x : ℚ) (k : ℤ) (h1 : (k : ℚ) ≤ x * 10 + 1 / 2) (h2 : x * 10 + 1 / 2 < (k : ℚ) + 1) : round1 x = (k : ℚ) / 10 := by
  rw [round1, jround_eq (x * 10) k h1 h2]

example : jround (1517 / 4) = 379 := jround_eq _ 379 (by norm_num) (by norm_num)

example : jround (-205 / 2) = -102 := jround_eq _ (-102) (by norm_num) (by norm_num)

example : round1 (43 / 10 * (3 / 2)) = 13 / 2 := by
  rw [round1_eq (43 / 10 * (3 / 2)) 65 (by norm_num) (by norm_num)]
  norm_num

/-- One entry of a meal's foods list as calculateBaseNutrition reads it: a
food id and a base portion in grams. -/
structure MealFood where
  foodId : String
  basePortion : ℚ
  deriving DecidableEq

/-- foods.find(f => f.id === mealFood.foodId) from the meal form. -/
def findFood (foods : List Food) (fid : String) : Option Food :=
  foods.find? (fun f => f.id == fid)

/-- The four running totals (and the returned record) of
calculateBaseNutrition. -/
structure MealTotals where
  calories : ℚ
  protein : ℚ
  carbs : ℚ
  fat : ℚ
  deriving DecidableEq

/-- One iteration of the forEach loop of calculateBaseNutrition: a resolved
food adds nutrientPer100 multiplied by basePortion over 100 to each total,
with an absent nutrient read as 0; an unresolvable foodId leaves every
total unchanged. -/
def mealAccum (foods : List Food) (acc : MealTotals) (mf : MealFood) : MealTotals :=
  match findFood foods mf.foodId with
  | some food =>
    MealTotals.mk
      (acc.calories + food.nutritionPer100.calories * mf.basePortion / 100)
      (acc.protein + (food.nutritionPer100.protein.getD 0) * mf.basePortion / 100)
      (acc.carbs + (food.nutritionPer100.carbs.getD 0) * mf.basePortion / 100)
      (acc.fat + (food.nutritionPer100.fat.getD 0) * mf.basePortion / 100)
  | none => acc

/-- calculateBaseNutrition from
src/client/src/components/meal-form-modal.tsx: fold the loop over the
meal's foods starting from zero totals, then round every total, calories
included, with Math.round(x * 10) / 10. -/
def calculateBaseNutrition (foods : List Food) (mealFoods : List MealFood) : MealTotals :=
  MealTotals.mk
    (round1 (mealFoods.foldl (mealAccum foods) (MealTotals.mk 0 0 0 0)).calories)
    (round1 (mealFoods.foldl (mealAccum foods) (MealTotals.mk 0 0 0 0)).protein)
    (round1 (mealFoods.foldl (mealAccum foods) (MealTotals.mk 0 0 0 0)).carbs)
    (round1 (mealFoods.foldl (mealAccum foods) (MealTotals.mk 0 0 0 0)).fat)

/-- Calories of a nutrition basis, as a summand of the aggregation. -/
def selCalories (n : Nutrition100) : ℚ := n.calories

/-- Protein of a nutrition basis with absence read as 0. -/
def selProtein (n : Nutrition100) : ℚ := n.protein.getD 0

/-- Carbs of a nutrition basis with absence read as 0. -/
def selCarbs (n : Nutrition100) : ℚ := n.carbs.getD 0

/-- Fat of a nutrition basis with absence read as 0. -/
def selFat (n : Nutrition100) : ℚ := n.fat.getD 0

/-- The contribution of one meal entry to one aggregated field, following
the claim's wording: nutrientPer100 times basePortion over 100, and 0 for
an unresolvable foodId. -/
def contribOf (foods : List Food) (sel : Nutrition100 → ℚ) (mf : MealFood) : ℚ :=
  match findFood foods mf.foodId with
  | some food => sel food.nutritionPer100 * mf.basePortion / 100
  | none => 0

/-- The sum of the per-entry contributions to one aggregated field. -/
def mealSum (foods : List Food) (sel : Nutrition100 → ℚ) (mfs : List MealFood) : ℚ :=
  (mfs.map (contribOf foods sel)).sum

/-- The forEach fold of calculateBaseNutrition computes, in each field, the
starting accumulator plus the sum of the per-entry contributions. -/
theorem mealAccum_foldl (foods : List Food) (mfs : List MealFood) (acc : MealTotals) :
    mfs.foldl (mealAccum foods) acc =
      MealTotals.mk (acc.calories + mealSum foods selCalories mfs)
        (acc.protein + mealSum foods selProtein mfs)
        (acc.carbs + mealSum foods selCarbs mfs)
        (acc.fat + mealSum foods selFat mfs) := by
  induction mfs generalizing acc with
  | nil =>
    obtain ⟨c, p, cb, f⟩ := acc
    simp [mealSum]
  | cons m rest ih =>
    rcases h : findFood foods m.foodId with _ | food
    · rw [List.foldl_cons, ih]
      simp [mealAccum, h, mealSum, contribOf]
    · rw [List.foldl_cons, ih]
      simp only [mealAccum, h, mealSum, contribOf, selCalories, selProtein, selCarbs,
        selFat, List.map_cons, List.sum_cons, MealTotals.mk.injEq]
      refine ⟨by ring, by ring, by ring, by ring⟩

/-- Unit token for grams. -/
def uG : String := "g"

/-- Unit token for milliliters. -/
def uMl : String := "ml"

/-- Unit token for liters. -/
def uL : String := "l"

/-- Unit token for cups. -/
def uCup : String := "cup"

/-- Unit token for tablespoons. -/
def uTbsp : String := "tbsp"

/-- Unit token for teaspoons. -/
def uTsp : String := "tsp"

/-- Unit token for plates. -/
def uPlate : String := "plate"

/-- Unit token for fists. -/
def uFist : String := "fist"

/-- Unit token for pieces. -/
def uPiece : String := "piece"

/-- A unit token outside the closed unit set. -/
def uOz : String := "oz"

/-- The nutrition basis of the spec's concrete scenario 1: calories 205,
protein 4.3, carbs 45, fat 0.4 per 100 units. -/
def scen1N : Nutrition100 :=
  Nutrition100.mk 205 (some (43 / 10)) (some 45) (some (2 / 5)) none none none

/-- A solid food whose name matches no conversion keyword and that has no
custom conversions. -/
def plainFood : Food :=
  Food.mk (r"f1") (r"Plain Solid") FoodType.solid scen1N none

/-- A solid food whose name contains the keyword rice. -/
def riceFood : Food :=
  Food.mk (r"f2") (r"Brown Rice") FoodType.solid scen1N none

/-- A custom conversions object overriding only cup, at 300 per cup. -/
def customCC : CustomConv :=
  CustomConv.mk (some 300) none none none none none

/-- A rice-named food carrying a custom cup override, so that the keyword
table and the generic default both disagree with the override. -/
def customFood : Food :=
  Food.mk (r"f3") (r"Brown Rice") FoodType.solid scen1N (some customCC)

/-- A solid food whose name contains the keyword bread, whose table holds
null for cup and plate. -/
def breadFood : Food :=
  Food.mk (r"f4") (r"Fresh Bread") FoodType.solid scen1N none

/-- A liquid food whose name matches no conversion keyword. -/
def liquidFood : Food :=
  Food.mk (r"f5") (r"Mystery Drink") FoodType.liquid
    (Nutrition100.mk 60 none none none none (some 9) none) none

/-- Claim C1: for every food, every fuzzy unit held by its custom
conversions with a positive value v, and every quantity q, the resolver's
equivalent base-unit amount is q times v, whatever the keyword tables or
generic defaults say for that unit. -/
theorem customOverrideAlwaysWins (food : Food) (u : String) (q v : ℚ) (cc : CustomConv)
    (hcc : food.customConversions = some cc) (hv : customField cc u = some v)
    (hvpos : 0 < v) :
    resolvedAmount food q u = q * v := by
  simp [resolvedAmount, mergedConversion, customLookup, hcc, hv]

/-- Witness for customOverrideAlwaysWins at a rice-named food with a cup
override of 300 and quantity 2. -/
theorem customOverrideAlwaysWins_witness :
    customFood.customConversions = some customCC ∧ customField customCC uCup = some 300 ∧
      (0 : ℚ) < 300 ∧ resolvedAmount customFood 2 uCup = 2 * 300 :=
  ⟨rfl, by decide, by norm_num,
    customOverrideAlwaysWins customFood uCup 2 300 customCC rfl (by decide) (by norm_num)⟩

/-- Claim C2: for a food without a custom override for the unit, whose name
detects a keyword (necessarily the first matching one in the table's
insertion order, and it does occur in the lowercased name), when the
keyword's table holds a non-null value for the unit, the resolver's
equivalent base-unit amount is quantity times that value. -/
theorem keywordTierFirstMatch (food : Food) (u : String) (q v : ℚ) (k : String)
    (tbl : FoodConv) (hnc : customLookup food u = none)
    (hdet : detectFoodType food.name = some k)
    (htbl : List.lookup k foodSpecificConversions = some tbl)
    (hval : tblField tbl u = some (some v)) :
    containsSeq (lowerChars food.name) k.data = true ∧ resolvedAmount food q u = q * v := by
  constructor
  · rcases Option.map_eq_some'.mp hdet with ⟨e, he, hek⟩
    subst hek
    simpa using List.find?_some he
  · simp [resolvedAmount, mergedConversion, hnc, foodSpecificLayer, foodSpecificFor,
      hdet, htbl, hval]

/-- Witness for keywordTierFirstMatch: one cup of a rice-named food without
overrides resolves through the rice table to 185 per cup. -/
theorem keywordTierFirstMatch_witness :
    customLookup riceFood uCup = none ∧ detectFoodType riceFood.name = some (r"rice") ∧
      (containsSeq (lowerChars riceFood.name) (String.data (r"rice")) = true ∧
        resolvedAmount riceFood 1 uCup = 1 * 185) :=
  ⟨rfl, by decide,
    keywordTierFirstMatch riceFood uCup 1 185 (r"rice")
      (FoodConv.mk (some 185) (some 200) none) rfl (by decide) (by decide) (by decide)⟩

/-- The merged conversion object always maps g to 1: no custom key and no
food-specific key can shadow it. -/
theorem mergedConversion_g (food : Food) : mergedConversion food uG = some (some 1) := by
  have h1 : customLookup food uG = none := by
    unfold customLookup
    rcases food.customConversions with _ | cc
    · rfl
    · rfl
  have h2 : foodSpecificLayer food uG = none := by
    unfold foodSpecificLayer
    rcases foodSpecificFor food.name with _ | t
    · rfl
    · rfl
  unfold mergedConversion
  rw [h1, h2]
  rfl

/-- The merged conversion object always maps ml to 1. -/
theorem mergedConversion_ml (food : Food) : mergedConversion food uMl = some (some 1) := by
  have h1 : customLookup food uMl = none := by
    unfold customLookup
    rcases food.customConversions with _ | cc
    · rfl
    · rfl
  have h2 : foodSpecificLayer food uMl = none := by
    unfold foodSpecificLayer
    rcases foodSpecificFor food.name with _ | t
    · rfl
    · rfl
  unfold mergedConversion
  rw [h1, h2]
  rfl

/-- The merged conversion object always maps l to 1000. -/
theorem mergedConversion_l (food : Food) : mergedConversion food uL = some (some 1000) := by
  have h1 : customLookup food uL = none := by
    unfold customLookup
    rcases food.customConversions with _ | cc
    · rfl
    · rfl
  have h2 : foodSpecificLayer food uL = none := by
    unfold foodSpecificLayer
    rcases foodSpecificFor food.name with _ | t
    · rfl
    · rfl
  unfold mergedConversion
  rw [h1, h2]
  rfl

/-- Claim C5: for a positive quantity in the food's base unit the ratio is
exactly q / 100, and the l unit always resolves to exactly 1000 times what
ml resolves to, whatever the food's overrides and name. -/
theorem exactBaseUnitScale (food : Food) (q : ℚ) (hq : 0 < q) :
    (food.foodType = FoodType.solid → servingFactor food q uG = q / 100) ∧
      (food.foodType = FoodType.liquid → servingFactor food q uMl = q / 100) ∧
      resolvedAmount food q uL = 1000 * resolvedAmount food q uMl := by
  refine ⟨?_, ?_, ?_⟩
  · intro _
    unfold servingFactor resolvedAmount baseAmount
    rw [mergedConversion_g]
    simp
  · intro _
    unfold servingFactor resolvedAmount baseAmount
    rw [mergedConversion_ml]
    simp
  · unfold resolvedAmount
    rw [mergedConversion_l, mergedConversion_ml]
    ring

/-- Witness for exactBaseUnitScale: 150 g of a plain solid food scales by
exactly 150 / 100. -/
theorem exactBaseUnitScale_witness :
    (0 : ℚ) < 150 ∧ servingFactor plainFood 150 uG = 150 / 100 :=
  ⟨by norm_num, (exactBaseUnitScale plainFood 150 (by norm_num)).1 rfl⟩

/-- The set of fuzzy units: the non-exact serving units. -/
def isFuzzyUnit (u : String) : Bool :=
  u == "cup" || u == "tbsp" || u == "tsp" || u == "plate" || u == "fist" || u == "piece"

/-- The generic default amounts exactly as the specification lists them:
cup 240 ml liquid and 200 g solid, tbsp 15 and 12, tsp 5 and 4, plate 200,
fist 80, piece 50. -/
def specGenericDefault (ft : FoodType) (u : String) : ℚ :=
  if u = "cup" then (if ft = FoodType.liquid then 240 else 200)
  else if u = "tbsp" then (if ft = FoodType.liquid then 15 else 12)
  else if u = "tsp" then (if ft = FoodType.liquid then 5 else 4)
  else if u = "plate" then 200
  else if u = "fist" then 80
  else if u = "piece" then 50
  else 0

/-- Counterexample to claim C3: one cup of a bread-named food. The bread
table marks cup as null, which the claim reads as falling back to the solid
cup default of 200; the resolver instead leaves the quantity unconverted,
yielding 1 rather than 1 times 200. -/
theorem genericDefaultBreadCupCex :
    resolvedAmount breadFood 1 uCup = 1 ∧ (1 : ℚ) ≠ 1 * 200 :=
  ⟨by decide, by norm_num⟩

/-- Claim C3 (amended): with no custom override, a fuzzy unit falls back to
the foodType-conditional generic default only when the food-specific layer
has no key for it (no keyword matched, or the unit is not cup, plate or
piece); when the matched table holds null for the unit, the resolver
returns the quantity unconverted instead. -/
theorem genericDefaultTierAmended (food : Food) (q : ℚ) (u : String)
    (hfz : isFuzzyUnit u = true) (hnc : customLookup food u = none) :
    (foodSpecificLayer food u = none →
      resolvedAmount food q u = q * specGenericDefault food.foodType u) ∧
      (foodSpecificLayer food u = some none → resolvedAmount food q u = q) := by
  have hfz2 : ((((u = "cup" ∨ u = "tbsp") ∨ u = "tsp") ∨ u = "plate") ∨ u = "fist") ∨
      u = "piece" := by
    simpa [isFuzzyUnit] using hfz
  rcases hfz2 with ((((h | h) | h) | h) | h) | h <;> subst h <;>
    exact ⟨fun hl => by
        unfold resolvedAmount mergedConversion
        rw [hnc, hl]
        rfl,
      fun hl => by
        unfold resolvedAmount mergedConversion
        rw [hnc, hl]⟩

/-- Witness for genericDefaultTierAmended: two tablespoons of a liquid food
with no override and no keyword match resolve through the liquid default of
15 per tbsp. -/
theorem genericDefaultTierAmended_witness :
    isFuzzyUnit uTbsp = true ∧ customLookup liquidFood uTbsp = none ∧
      foodSpecificLayer liquidFood uTbsp = none ∧
      resolvedAmount liquidFood 2 uTbsp = 2 * specGenericDefault liquidFood.foodType uTbsp :=
  ⟨by decide, rfl, by decide,
    (genericDefaultTierAmended liquidFood 2 uTbsp (by decide) rfl).1 (by decide)⟩

/-- Counterexample to claim C4: for the unit oz no tier yields a value, yet
the resolver does not fail; it silently computes nutrition from the raw
quantity, giving the same record as 50 grams. -/
theorem unsupportedUnitNoErrorCex :
    mergedConversion plainFood uOz = none ∧
      calculateNutritionForServing plainFood 50 uOz = calculateNutritionForServing plainFood 50 uG := by
  refine ⟨by decide, ?_⟩
  have h1 : servingFactor plainFood 50 uOz = 50 / 100 := by
    unfold servingFactor resolvedAmount baseAmount
    rw [show mergedConversion plainFood uOz = none from by decide]
    rfl
  have h2 : servingFactor plainFood 50 uG = 50 / 100 := by
    unfold servingFactor resolvedAmount baseAmount
    rw [mergedConversion_g]
    norm_num
  unfold calculateNutritionForServing
  rw [h1, h2]

/-- Claim C4 (amended): when no tier yields a conversion value for the
requested unit, the resolver raises no error: it treats the quantity as
already in base units and returns the nutrition record scaled by q / 100. -/
theorem unsupportedUnitFallsBackToRawQuantity (food : Food) (q : ℚ) (u : String)
    (h : mergedConversion food u = none) :
    resolvedAmount food q u = q ∧
      calculateNutritionForServing food q u = scaleNutrition food.nutritionPer100 (q / 100) := by
  have h1 : resolvedAmount food q u = q := by
    unfold resolvedAmount
    rw [h]
  refine ⟨h1, ?_⟩
  unfold calculateNutritionForServing servingFactor baseAmount
  rw [h1]
  simp

/-- Witness for unsupportedUnitFallsBackToRawQuantity: 3 oz of the liquid
food yields the record scaled by 3 / 100. -/
theorem unsupportedUnitFallsBackToRawQuantity_witness :
    mergedConversion liquidFood uOz = none ∧
      (resolvedAmount liquidFood 3 uOz = 3 ∧
        calculateNutritionForServing liquidFood 3 uOz =
          scaleNutrition liquidFood.nutritionPer100 (3 / 100)) :=
  ⟨by decide, unsupportedUnitFallsBackToRawQuantity liquidFood 3 uOz (by decide)⟩

/-- Evaluation rule for truthyScale on a present non-zero nutrient. -/
theorem truthyScale_eval (x r : ℚ) (k : ℤ) (hx : x ≠ 0)
    (h1 : (k : ℚ) ≤ x * r * 10 + 1 / 2) (h2 : x * r * 10 + 1 / 2 < (k : ℚ) + 1) :
    truthyScale (some x) r = some ((k : ℚ) / 10) := by
  show (if x = 0 then none else some (round1 (x * r))) = some ((k : ℚ) / 10)
  rw [if_neg hx, round1_eq (x * r) k h1 h2]

/-- Counterexample to claim C9: a serving of minus 50 grams is not rejected;
the resolver returns a fully computed, negative nutrition record. -/
theorem negativeQuantityAcceptedCex :
    calculateNutritionForServing plainFood (-50) uG =
      NutritionOut.mk (-102) (some (-21 / 10)) (some (-45 / 2)) (some (-1 / 5)) none none none := by
  have hf : servingFactor plainFood (-50) uG = -(1 / 2) := by
    unfold servingFactor resolvedAmount baseAmount
    rw [mergedConversion_g]
    norm_num
  unfold calculateNutritionForServing
  rw [hf]
  unfold scaleNutrition
  simp only [NutritionOut.mk.injEq]
  refine ⟨?_, ?_, ?_, ?_, rfl, rfl, rfl⟩
  · rw [show plainFood.nutritionPer100.calories = 205 from rfl,
      jround_eq (205 * -(1 / 2)) (-102) (by norm_num) (by norm_num)]
    norm_num
  · rw [show plainFood.nutritionPer100.protein = some (43 / 10) from rfl,
      truthyScale_eval (43 / 10) (-(1 / 2)) (-21) (by norm_num) (by norm_num) (by norm_num)]
    norm_num
  · rw [show plainFood.nutritionPer100.carbs = some 45 from rfl,
      truthyScale_eval 45 (-(1 / 2)) (-225) (by norm_num) (by norm_num) (by norm_num)]
    norm_num
  · rw [show plainFood.nutritionPer100.fat = some (2 / 5) from rfl,
      truthyScale_eval (2 / 5) (-(1 / 2)) (-2) (by norm_num) (by norm_num) (by norm_num)]
    norm_num

/-- Claim C9 (amended): the resolver applies no validation to the serving
quantity; for any quantity q, zero and negatives included, a request in
grams returns the nutrition record scaled by q / 100. -/
theorem noQuantityValidation (food : Food) (q : ℚ) (hq : q ≤ 0) :
    calculateNutritionForServing food q uG = scaleNutrition food.nutritionPer100 (q / 100) := by
  have h : servingFactor food q uG = q / 100 := by
    unfold servingFactor resolvedAmount baseAmount
    rw [mergedConversion_g]
    simp
  unfold calculateNutritionForServing
  rw [h]

/-- Witness for noQuantityValidation at quantity zero. -/
theorem noQuantityValidation_witness :
    (0 : ℚ) ≤ 0 ∧ calculateNutritionForServing plainFood 0 uG =
      scaleNutrition plainFood.nutritionPer100 (0 / 100) :=
  ⟨le_refl 0, noQuantityValidation plainFood 0 (le_refl 0)⟩

/-- A solid food whose protein is present with value exactly 0. -/
def zeroProteinFood : Food :=
  Food.mk (r"f6") (r"Plain Zero") FoodType.solid
    (Nutrition100.mk 100 (some 0) none none none none none) none

/-- Counterexample to claim C6: a nutrient present with value 0 is not
multiplied and returned rounded; the scaled output omits it. At 100 g the
ratio is 1, so the claim expects protein some (round1 of 0 times the
factor), yet the output's protein is absent. -/
theorem zeroNutrientPresenceCex :
    zeroProteinFood.nutritionPer100.protein = some 0 ∧
      (calculateNutritionForServing zeroProteinFood 100 uG).protein = none ∧
      (calculateNutritionForServing zeroProteinFood 100 uG).protein ≠
        some (round1 (0 * servingFactor zeroProteinFood 100 uG)) := by
  refine ⟨rfl, rfl, ?_⟩
  rw [show (calculateNutritionForServing zeroProteinFood 100 uG).protein = none from rfl]
  exact fun h => Option.noConfusion h

/-- Data shape of one scaled optional nutrient: absence stays absent, a
present zero is dropped, and a present non-zero value is multiplied by the
ratio and rounded to one decimal. -/
def scaledFieldOk (v : Option ℚ) (r : ℚ) (out : Option ℚ) : Prop :=
  (v = none → out = none) ∧ (v = some 0 → out = none) ∧
    (∀ x, v = some x → x ≠ 0 → out = some (round1 (x * r)))

/-- Claim C6 (amended): for every nutrition basis and ratio at least 0,
scaling rounds calories to the nearest whole number, multiplies every
present non-zero optional nutrient by the ratio and rounds it to one
decimal place, leaves absent nutrients absent, and also returns nutrients
present with value 0 as absent. -/
theorem singleFoodScalingLaw (n : Nutrition100) (r : ℚ) (hr : 0 ≤ r) :
    (scaleNutrition n r).calories = ((jround (n.calories * r) : ℤ) : ℚ) ∧
      scaledFieldOk n.protein r (scaleNutrition n r).protein ∧
      scaledFieldOk n.carbs r (scaleNutrition n r).carbs ∧
      scaledFieldOk n.fat r (scaleNutrition n r).fat ∧
      scaledFieldOk n.fiber r (scaleNutrition n r).fiber ∧
      scaledFieldOk n.sugar r (scaleNutrition n r).sugar ∧
      scaledFieldOk n.sodium r (scaleNutrition n r).sodium := by
  have hfield : ∀ v : Option ℚ, scaledFieldOk v r (truthyScale v r) := by
    intro v
    refine ⟨fun h => by rw [h]; rfl, fun h => by
        rw [h]
        show (if (0 : ℚ) = 0 then none else some (round1 (0 * r))) = none
        rw [if_pos rfl],
      fun x hx hx0 => by
        rw [hx]
        show (if x = 0 then none else some (round1 (x * r))) = some (round1 (x * r))
        rw [if_neg hx0]⟩
  exact ⟨rfl, hfield n.protein, hfield n.carbs, hfield n.fat, hfield n.fiber,
    hfield n.sugar, hfield n.sodium⟩

/-- Witness for singleFoodScalingLaw at the scenario 1 basis and ratio 3/2:
protein 4.3 scales to round1 of 4.3 times 3/2. -/
theorem singleFoodScalingLaw_witness :
    (0 : ℚ) ≤ 3 / 2 ∧ (scaleNutrition scen1N (3 / 2)).protein = some (round1 (43 / 10 * (3 / 2))) :=
  ⟨by norm_num,
    ((singleFoodScalingLaw scen1N (3 / 2) (by norm_num)).2.1).2.2 (43 / 10) rfl (by norm_num)⟩

/-- Claim C10: a nutrient present with value exactly 0 is omitted from the
scaled output for every serving size and unit; presence with value zero is
not distinguished from absence. -/
theorem zeroNutrientOmitted (food : Food) (s : ℚ) (u : String) :
    (food.nutritionPer100.protein = some 0 → (calculateNutritionForServing food s u).protein = none) ∧
      (food.nutritionPer100.carbs = some 0 → (calculateNutritionForServing food s u).carbs = none) ∧
      (food.nutritionPer100.fat = some 0 → (calculateNutritionForServing food s u).fat = none) ∧
      (food.nutritionPer100.fiber = some 0 → (calculateNutritionForServing food s u).fiber = none) ∧
      (food.nutritionPer100.sugar = some 0 → (calculateNutritionForServing food s u).sugar = none) ∧
      (food.nutritionPer100.sodium = some 0 → (calculateNutritionForServing food s u).sodium = none) := by
  have hz : ∀ v : Option ℚ, v = some 0 → truthyScale v (servingFactor food s u) = none := by
    intro v h
    rw [h]
    show (if (0 : ℚ) = 0 then none else some (round1 (0 * servingFactor food s u))) = none
    rw [if_pos rfl]
  exact ⟨hz food.nutritionPer100.protein, hz food.nutritionPer100.carbs,
    hz food.nutritionPer100.fat, hz food.nutritionPer100.fiber,
    hz food.nutritionPer100.sugar, hz food.nutritionPer100.sodium⟩

/-- Witness for zeroNutrientOmitted: two cups of the zero-protein food
still yield an absent protein field. -/
theorem zeroNutrientOmitted_witness :
    zeroProteinFood.nutritionPer100.protein = some 0 ∧
      (calculateNutritionForServing zeroProteinFood 2 uCup).protein = none :=
  ⟨rfl, (zeroNutrientOmitted zeroProteinFood 2 uCup).1 rfl⟩

/-- A solid food of 3 calories per 100 g, to expose the rounding of the
aggregated calorie total. -/
def tinyFood : Food :=
  Food.mk (r"t1") (r"Plain Tiny") FoodType.solid
    (Nutrition100.mk 3 none none none none none none) none

/-- Counterexample to claim C7: a meal whose exact calorie total is 0.45.
The aggregator returns 0.5 (one-decimal rounding), while the claim's
whole-number rounding of calories would give jround of 45/100, which is 0. -/
theorem mealCaloriesOneDecimalCex :
    (calculateBaseNutrition [tinyFood] [MealFood.mk (r"t1") 15]).calories = 1 / 2 ∧
      ((1 : ℚ) / 2) ≠ ((jround (45 / 100) : ℤ) : ℚ) := by
  constructor
  · have h1 : ([MealFood.mk (r"t1") 15]).foldl (mealAccum [tinyFood]) (MealTotals.mk 0 0 0 0) =
        MealTotals.mk (0 + 3 * 15 / 100) (0 + 0 * 15 / 100) (0 + 0 * 15 / 100)
          (0 + 0 * 15 / 100) := by
      rw [List.foldl_cons, List.foldl_nil]
      unfold mealAccum
      rw [show findFood [tinyFood] (MealFood.mk (r"t1") 15).foodId = some tinyFood from by decide]
      rfl
    show round1 (([MealFood.mk (r"t1") 15]).foldl (mealAccum [tinyFood])
      (MealTotals.mk 0 0 0 0)).calories = 1 / 2
    rw [h1]
    rw [show (MealTotals.mk (0 + 3 * 15 / 100) (0 + 0 * 15 / 100) (0 + 0 * 15 / 100)
      (0 + 0 * 15 / 100)).calories = 0 + 3 * 15 / 100 from rfl]
    rw [round1_eq (0 + 3 * 15 / 100) 5 (by norm_num) (by norm_num)]
    norm_num
  · rw [show jround (45 / 100) = 0 from jround_eq (45 / 100) 0 (by norm_num) (by norm_num)]
    norm_num

/-- Claim C7 (amended): meal aggregation sums, over the entries whose
foodId resolves, nutrientPer100 times basePortion over 100 with absent
nutrients read as 0, and rounds every one of the four totals, calories
included, to one decimal place. -/
theorem mealAggregationSums (foods : List Food) (mfs : List MealFood) :
    calculateBaseNutrition foods mfs =
      MealTotals.mk (round1 (mealSum foods selCalories mfs))
        (round1 (mealSum foods selProtein mfs))
        (round1 (mealSum foods selCarbs mfs))
        (round1 (mealSum foods selFat mfs)) := by
  unfold calculateBaseNutrition
  rw [mealAccum_foldl]
  simp

/-- A solid food for the dangling-reference scenarios. -/
def foodA : Food :=
  Food.mk (r"a1") (r"Plain Alpha") FoodType.solid
    (Nutrition100.mk 205 none none none none none none) none

/-- Counterexample to claim C8: a store holding only foodA and a meal that
also references the unresolvable id ghost. Aggregation of that meal equals
aggregation of the meal without the dangling entry, so no function of the
aggregation's output can tell the caller which ids were unresolvable. -/
theorem missingFoodUndetectableCex :
    findFood [foodA] (r"ghost") = none ∧
      calculateBaseNutrition [foodA] [MealFood.mk (r"a1") 100, MealFood.mk (r"ghost") 50] =
        calculateBaseNutrition [foodA] [MealFood.mk (r"a1") 100] := by
  refine ⟨by decide, ?_⟩
  have hg : ∀ acc, mealAccum [foodA] acc (MealFood.mk (r"ghost") 50) = acc := by
    intro acc
    unfold mealAccum
    rw [show findFood [foodA] (MealFood.mk (r"ghost") 50).foodId = none from by decide]
  unfold calculateBaseNutrition
  simp only [List.foldl_cons, List.foldl_nil, hg]

/-- Claim C8 (amended): an entry whose foodId does not resolve contributes
nothing and breaks nothing: aggregation of a food list with the dangling
entry equals aggregation without it. In particular the output carries no
report of which ids were unresolvable. -/
theorem missingFoodSkipped (foods : List Food) (pre post : List MealFood) (m : MealFood)
    (h : findFood foods m.foodId = none) :
    calculateBaseNutrition foods (pre ++ m :: post) =
      calculateBaseNutrition foods (pre ++ post) := by
  have hacc : ∀ acc, mealAccum foods acc m = acc := by
    intro acc
    unfold mealAccum
    rw [h]
  unfold calculateBaseNutrition
  simp only [List.foldl_append, List.foldl_cons, hacc]

/-- Witness for missingFoodSkipped: dropping the dangling ghost entry from
a one-food meal leaves the aggregate unchanged. -/
theorem missingFoodSkipped_witness :
    findFood [foodA] (MealFood.mk (r"ghost") 50).foodId = none ∧
      calculateBaseNutrition [foodA] ([MealFood.mk (r"a1") 100] ++ MealFood.mk (r"ghost") 50 :: []) =
        calculateBaseNutrition [foodA] ([MealFood.mk (r"a1") 100] ++ []) :=
  ⟨by decide,
    missingFoodSkipped [foodA] [MealFood.mk (r"a1") 100] [] (MealFood.mk (r"ghost") 50) (by decide)⟩
